import Mathlib

/-!
Verification of the key-pair lifecycle test harness (keypair.cc).

The harness drives an external PKCS#11 token through key-pair generation,
encrypt/decrypt round trips, attribute retrieval and object destruction, and
asserts on the returned result codes and buffers.  We embed the harness
shallowly: the token is an abstract record of operations (the device under
test is an external collaborator), and each TEST_F body of keypair.cc becomes
a Lean function from a token to the test verdict (true = every gtest
ASSERT/EXPECT in the body passed).  Helpers that live in pkcs11test.h rather
than in keypair.cc (the KeyPair fixture's template builder and teardown, the
invalid-handle sentinel) are modelled from the design spec and marked as such.
-/

/-- Raw byte strings: each entry is one byte value. -/
abbrev Bytes : Type := List Nat

/-- CK_SESSION_HANDLE: opaque session identifier. -/
abbrev Session : Type := Nat

/-- CK_OBJECT_HANDLE: opaque object handle. -/
abbrev Handle : Type := Nat

/-- Modelled from the spec: the invalid-handle sentinel INVALID_OBJECT_HANDLE
(declared in pkcs11test.h, which is not under src/).  Its only role in the
claims is to be the distinguished value that marks a handle as not held. -/
def INVALID_OBJECT_HANDLE : Handle := 0

/-- CK_RV result codes, restricted to the taxonomy the harness consumes:
success, the sensitive-attribute code, the template-inconsistent code, the
buffer-too-small code, and a catch-all for every other numeric code. -/
inductive RV where
  | ok
  | attributeSensitive
  | templateInconsistent
  | bufferTooSmall
  | other (code : Nat)
deriving DecidableEq

/- PKCS#11 attribute type constants used by keypair.cc (values from pkcs11t.h). -/

def CKA_TOKEN : Nat := 0x1

def CKA_LABEL : Nat := 0x3

def CKA_SENSITIVE : Nat := 0x103

def CKA_ENCRYPT : Nat := 0x104

def CKA_DECRYPT : Nat := 0x105

def CKA_MODULUS : Nat := 0x120

def CKA_MODULUS_BITS : Nat := 0x121

def CKA_PUBLIC_EXPONENT : Nat := 0x122

def CKA_PRIVATE_EXPONENT : Nat := 0x123

def CKA_PRIME_1 : Nat := 0x124

def CKA_PRIME_2 : Nat := 0x125

/- PKCS#11 mechanism type constants used by keypair.cc. -/

def CKM_RSA_PKCS_KEY_PAIR_GEN : Nat := 0x0

def CKM_RSA_PKCS : Nat := 0x1

/-- CK_MECHANISM: mechanism identifier plus parameter bytes.  In every
scenario in scope the parameter block is empty ({..., NULL_PTR, 0}). -/
structure Mechanism where
  mechanism : Nat
  parameter : Bytes
deriving DecidableEq

/-- The mechanism {CKM_RSA_PKCS, NULL_PTR, 0} of keypair.cc:54. -/
def mechanism_RSA_PKCS : Mechanism := ⟨CKM_RSA_PKCS, []⟩

/-- The mechanism {CKM_RSA_PKCS_KEY_PAIR_GEN, NULL_PTR, 0} of keypair.cc:87/151. -/
def mechanism_RSA_PKCS_KEY_PAIR_GEN : Mechanism := ⟨CKM_RSA_PKCS_KEY_PAIR_GEN, []⟩

/-- CK_ATTRIBUTE: a (type, pValue, ulValueLen) triplet.  value = none models a
NULL pValue (with ulValueLen 0), as produced by the bare aggregate
initializer {CKA_ENCRYPT} at keypair.cc:80. -/
structure Attribute where
  type : Nat
  value : Option Bytes
deriving DecidableEq

/-- ulValueLen of an attribute as the harness supplies it: the byte length of
the value, 0 for a NULL pValue. -/
def Attribute.len (a : Attribute) : Nat := (a.value.getD []).length

/-- The canonical CK_BBOOL true value g_ck_true (one byte, sizeof(CK_BBOOL) = 1). -/
def ckTrue : Bytes := [1]

/-- The canonical CK_BBOOL false value g_ck_false. -/
def ckFalse : Bytes := [0]

/-- Byte image of a CK_ULONG value as passed with sizeof(CK_ULONG) = 8
(LP64 little-endian); the harness never decodes these bytes itself. -/
def ckUlongBytes (n : Nat) : Bytes :=
  [n % 256, n / 256 % 256, n / 256 ^ 2 % 256, n / 256 ^ 3 % 256,
   n / 256 ^ 4 % 256, n / 256 ^ 5 % 256, n / 256 ^ 6 % 256, n / 256 ^ 7 % 256]

/-- Modelled from the spec: the global label bytes g_label (declared in the
globals module, not under src/).  The exact contents are immaterial to every
claim; only the (pointer, length) pair is passed through. -/
def g_label : Bytes := [0x70, 0x6b, 0x63, 0x73, 0x31, 0x31, 0x74, 0x65, 0x73, 0x74]

/-- The external PKCS#11 token (device under test), as the closed set of
operations keypair.cc invokes through g_fns.  C_Encrypt/C_Decrypt take the
mechanism and key handle bound by the immediately preceding
C_EncryptInit/C_DecryptInit call, so the bound pair is passed explicitly.
Output-producing calls return the produced bytes; the caller-side in/out
length argument is modelled by the capacity parameter, and the length written
back is the length of the returned bytes. -/
structure Token where
  generateKeyPair : Session → Mechanism → List Attribute → List Attribute → RV × Handle × Handle
  encryptInit : Session → Mechanism → Handle → RV
  encrypt : Session → Mechanism → Handle → Bytes → Nat → RV × Bytes
  decryptInit : Session → Mechanism → Handle → RV
  decrypt : Session → Mechanism → Handle → Bytes → Nat → RV × Bytes
  getAttributeValue : Session → Handle → List (Nat × Nat) → RV × List Bytes
  destroyObject : Session → Handle → RV

/-- Modelled from the spec: one entry of the attribute-template builder's
input, either a bare attribute kind (boolean shorthand) or a kind with an
explicit byte-exact value (the builder lives in pkcs11test.h, not under src/). -/
inductive AttrSpec where
  | kindOnly (t : Nat)
  | withValue (t : Nat) (v : Bytes)

/-- Modelled from the spec: the attribute-template builder of the KeyPair
fixture (pkcs11test.h, not under src/).  A bare boolean kind defaults to the
canonical true value with sizeof(CK_BBOOL); kinds with explicit values are
passed through byte-exact. -/
def buildAttribute : AttrSpec → Attribute
  | AttrSpec.kindOnly t => ⟨t, some ckTrue⟩
  | AttrSpec.withValue t v => ⟨t, some v⟩

/-- The 3-byte big-endian public exponent {0x1, 0x0, 0x1} of keypair.cc:138. -/
def public_exponent_value_3 : Bytes := [0x1, 0x0, 0x1]

/-- The 4-byte big-endian public exponent {0x00, 0x1, 0x0, 0x1} of keypair.cc:78. -/
def public_exponent_value_4 : Bytes := [0x00, 0x1, 0x0, 0x1]

/-- The CK_ULONG modulus_bits = 1024 of keypair.cc:77/137. -/
def modulus_bits : Nat := 1024

/-- Modelled from the spec: the base public template the KeyPair fixture adds
to the caller's attribute kinds (pkcs11test.h, not under src/): a 1024-bit
modulus request (implied by the fixed-size-ciphertext property) and an
explicit 65537 public exponent, 3-byte encoded as elsewhere in the harness. -/
def keyPairBasePublicAttrs : List Attribute :=
  [⟨CKA_MODULUS_BITS, some (ckUlongBytes modulus_bits)⟩,
   ⟨CKA_PUBLIC_EXPONENT, some public_exponent_value_3⟩]

/-- Modelled from the spec: KeyPair fixture generation (pkcs11test.h, not
under src/): builds the two templates from the caller's attribute kinds via
the builder (booleans default to true) and invokes key-pair generation with
the fixed CKM_RSA_PKCS_KEY_PAIR_GEN mechanism, returning the result code and
the two handles. -/
def keyPairGenerate (tok : Token) (s : Session)
    (public_attr_types private_attr_types : List Nat) : RV × Handle × Handle :=
  tok.generateKeyPair s mechanism_RSA_PKCS_KEY_PAIR_GEN
    (keyPairBasePublicAttrs ++ public_attr_types.map (fun t => buildAttribute (AttrSpec.kindOnly t)))
    (private_attr_types.map (fun t => buildAttribute (AttrSpec.kindOnly t)))

/-- public_attrs_ of the KeyPairTest fixture (keypair.cc:38). -/
def kpPublic_attr_types : List Nat := [CKA_ENCRYPT, CKA_TOKEN]

/-- private_attrs_ of the KeyPairTest fixture (keypair.cc:39). -/
def kpPrivate_attr_types : List Nat := [CKA_DECRYPT, CKA_TOKEN]

/-- The 10-byte plaintext "0123456789" of keypair.cc:50-52 (ASCII bytes). -/
def plaintext : Bytes := [0x30, 0x31, 0x32, 0x33, 0x34, 0x35, 0x36, 0x37, 0x38, 0x39]

/-- plaintext_len = sizeof(plaintext) (keypair.cc:51). -/
def plaintext_len : Nat := plaintext.length

/-- ciphertext_len as initialized: sizeof(ciphertext) = 1024 (keypair.cc:58-59),
the capacity handed to the single-shot C_Encrypt call. -/
def ciphertext_capacity : Nat := 1024

/-- recovered_plaintext_len as initialized: sizeof(plaintext) = 10
(keypair.cc:69) — note: NOT sizeof(recovered_plaintext) = 1024, although the
recovered_plaintext buffer itself is declared with 1024 bytes (keypair.cc:68).
This is the capacity handed to the single-shot C_Decrypt call. -/
def recovered_plaintext_capacity : Nat := plaintext_len

/-- The key-pair generation call issued by the KeyPairTest fixture
(keypair.cc:37-44): result code, public handle, private handle. -/
def kpGen (tok : Token) (s : Session) : RV × Handle × Handle :=
  keyPairGenerate tok s kpPublic_attr_types kpPrivate_attr_types

/-- The single-shot C_Encrypt call of EncryptDecrypt (keypair.cc:60): the
plaintext under CKM_RSA_PKCS with the fixture's public handle and the
1024-byte ciphertext buffer capacity. -/
def kpEncrypt (tok : Token) (s : Session) : RV × Bytes :=
  tok.encrypt s mechanism_RSA_PKCS (kpGen tok s).2.1 plaintext ciphertext_capacity

/-- The single-shot C_Decrypt call of EncryptDecrypt (keypair.cc:70): the
produced ciphertext under CKM_RSA_PKCS with the fixture's private handle and
the in/out capacity recovered_plaintext_len = sizeof(plaintext). -/
def kpDecrypt (tok : Token) (s : Session) : RV × Bytes :=
  tok.decrypt s mechanism_RSA_PKCS (kpGen tok s).2.2 (kpEncrypt tok s).2
    recovered_plaintext_capacity

/-- TEST_F(KeyPairTest, EncryptDecrypt) (keypair.cc:49-74).  The fixture
generates a pair with public kinds {CKA_ENCRYPT, CKA_TOKEN} and private kinds
{CKA_DECRYPT, CKA_TOKEN}; the body encrypts the 10-byte plaintext with the
public handle under CKM_RSA_PKCS, expects ciphertext length 128, decrypts
with the private handle, and expects success, equal lengths, and memcmp
agreement over the first plaintext_len bytes of the recovered buffer.  The
checks are listed in source order; an ASSERT failure aborts the C++ body,
which for the final pass/fail verdict is equivalent to plain conjunction. -/
def EncryptDecrypt (tok : Token) (s : Session) : Bool :=
  decide ((kpGen tok s).1 = RV.ok)
    && decide (tok.encryptInit s mechanism_RSA_PKCS (kpGen tok s).2.1 = RV.ok)
    && decide ((kpEncrypt tok s).1 = RV.ok)
    && decide ((kpEncrypt tok s).2.length = 128)
    && decide (tok.decryptInit s mechanism_RSA_PKCS (kpGen tok s).2.2 = RV.ok)
    && decide ((kpDecrypt tok s).1 = RV.ok)
    && decide ((kpDecrypt tok s).2.length = plaintext_len)
    && decide ((kpDecrypt tok s).2.take plaintext_len = plaintext)

/-- TEST_F(ReadWriteSessionTest, PublicExponent4Bytes) (keypair.cc:76-102).
Generates a pair whose public template carries a bare {CKA_ENCRYPT} (NULL
value), CKA_MODULUS_BITS = 1024 and the 4-byte public exponent, expects
success, and then destroys whichever returned handles are not the invalid
sentinel, expecting each destroy to succeed. -/
def PublicExponent4Bytes (tok : Token) (s : Session) : Bool :=
  let public_attrs : List Attribute :=
    [⟨CKA_ENCRYPT, none⟩,
     ⟨CKA_MODULUS_BITS, some (ckUlongBytes modulus_bits)⟩,
     ⟨CKA_PUBLIC_EXPONENT, some public_exponent_value_4⟩]
  let private_attrs : List Attribute := [⟨CKA_DECRYPT, none⟩]
  let gen := tok.generateKeyPair s mechanism_RSA_PKCS_KEY_PAIR_GEN public_attrs private_attrs
  decide (gen.1 = RV.ok)
    && (if gen.2.1 ≠ INVALID_OBJECT_HANDLE then decide (tok.destroyObject s gen.2.1 = RV.ok) else true)
    && (if gen.2.2 ≠ INVALID_OBJECT_HANDLE then decide (tok.destroyObject s gen.2.2 = RV.ok) else true)

/-- Public attribute kinds of ExtractKeys (keypair.cc:105). -/
def extractPublic_attr_types : List Nat := [CKA_ENCRYPT]

/-- Private attribute kinds of ExtractKeys (keypair.cc:106): the private
template is marked sensitive. -/
def extractPrivate_attr_types : List Nat := [CKA_DECRYPT, CKA_SENSITIVE]

/-- The get_public_attrs query of keypair.cc:112-115: CKA_MODULUS with a
512-byte buffer and CKA_PUBLIC_EXPONENT with a 16-byte buffer. -/
def getPublicAttrsQuery : List (Nat × Nat) := [(CKA_MODULUS, 512), (CKA_PUBLIC_EXPONENT, 16)]

/-- The key-pair generation call issued by the KeyPair fixture of ExtractKeys
(keypair.cc:107): the private template is marked sensitive. -/
def extractGen (tok : Token) (s : Session) : RV × Handle × Handle :=
  keyPairGenerate tok s extractPublic_attr_types extractPrivate_attr_types

/-- TEST_F(ReadWriteSessionTest, ExtractKeys) (keypair.cc:104-132).  Generates
a pair whose private template contains CKA_SENSITIVE, expects retrieving
modulus and public exponent from the public handle to succeed, and expects
each of the three private-key queries (CKA_PRIME_1, CKA_PRIME_2,
CKA_PRIVATE_EXPONENT, each with the 1024-byte buffer) to return
CKR_ATTRIBUTE_SENSITIVE. -/
def ExtractKeys (tok : Token) (s : Session) : Bool :=
  decide ((extractGen tok s).1 = RV.ok)
    && decide ((tok.getAttributeValue s (extractGen tok s).2.1 getPublicAttrsQuery).1 = RV.ok)
    && decide ((tok.getAttributeValue s (extractGen tok s).2.2 [(CKA_PRIME_1, 1024)]).1
        = RV.attributeSensitive)
    && decide ((tok.getAttributeValue s (extractGen tok s).2.2 [(CKA_PRIME_2, 1024)]).1
        = RV.attributeSensitive)
    && decide ((tok.getAttributeValue s (extractGen tok s).2.2 [(CKA_PRIVATE_EXPONENT, 1024)]).1
        = RV.attributeSensitive)

/-- The public template of AsymmetricTokenKeyPair (keypair.cc:139-145): the
public key is marked session-only (CKA_TOKEN false). -/
def asymPublic_attrs : List Attribute :=
  [⟨CKA_ENCRYPT, some ckTrue⟩,
   ⟨CKA_TOKEN, some ckFalse⟩,
   ⟨CKA_LABEL, some g_label⟩,
   ⟨CKA_MODULUS_BITS, some (ckUlongBytes modulus_bits)⟩,
   ⟨CKA_PUBLIC_EXPONENT, some public_exponent_value_3⟩]

/-- The private template of AsymmetricTokenKeyPair (keypair.cc:146-150): the
private key is marked token-resident (CKA_TOKEN true). -/
def asymPrivate_attrs : List Attribute :=
  [⟨CKA_DECRYPT, some ckTrue⟩,
   ⟨CKA_TOKEN, some ckTrue⟩,
   ⟨CKA_LABEL, some g_label⟩]

/-- The key-pair generation call of AsymmetricTokenKeyPair (keypair.cc:154-157). -/
def asymGen (tok : Token) (s : Session) : RV × Handle × Handle :=
  tok.generateKeyPair s mechanism_RSA_PKCS_KEY_PAIR_GEN asymPublic_attrs asymPrivate_attrs

/-- TEST_F(ReadWriteSessionTest, AsymmetricTokenKeyPair) (keypair.cc:134-164).
Attempts to generate a pair with the private key on the token but the public
key not.  If generation returns CKR_OK, both handles must destroy
successfully; otherwise the result code must be exactly
CKR_TEMPLATE_INCONSISTENT. -/
def AsymmetricTokenKeyPair (tok : Token) (s : Session) : Bool :=
  if (asymGen tok s).1 = RV.ok then
    decide (tok.destroyObject s (asymGen tok s).2.1 = RV.ok)
      && decide (tok.destroyObject s (asymGen tok s).2.2 = RV.ok)
  else
    decide ((asymGen tok s).1 = RV.templateInconsistent)

/-- The fixture's held handles: the state acted on by teardown. -/
structure FixtureState where
  public_handle : Handle
  private_handle : Handle
deriving DecidableEq

/-- Modelled from the spec: KeyPair fixture teardown (pkcs11test.h, not under
src/).  Destroy-object is invoked for each held handle that is not the
invalid sentinel — the same guard as the explicit cleanup at
keypair.cc:96-101 — and the handles are then marked invalid, so a later
teardown holds nothing.  The result is the list of handles destroy-object
was invoked on together with the state after teardown. -/
def teardown (st : FixtureState) : List Handle × FixtureState :=
  ((if st.public_handle ≠ INVALID_OBJECT_HANDLE then [st.public_handle] else []) ++
     (if st.private_handle ≠ INVALID_OBJECT_HANDLE then [st.private_handle] else []),
   ⟨INVALID_OBJECT_HANDLE, INVALID_OBJECT_HANDLE⟩)

/-- n invocations of teardown in sequence: all destroy-object invocations
issued, and the final state. -/
def teardownTimes : Nat → FixtureState → List Handle × FixtureState
  | 0, st => ([], st)
  | n + 1, st =>
    let first := teardown st
    let rest := teardownTimes n first.2
    (first.1 ++ rest.1, rest.2)

/-- Interpretation of a byte array as a big-endian unsigned integer, the
reading under which the two public-exponent encodings denote 65537. -/
def beVal (bs : Bytes) : Nat := bs.foldl (fun acc b => acc * 256 + b) 0

/-- The maximum recovered-plaintext size of the CKM_RSA_PKCS mechanism with a
1024-bit (128-byte) modulus: PKCS#1 v1.5 block-type-2 padding costs 11 bytes,
so up to 128 - 11 = 117 bytes of plaintext can come back from C_Decrypt. -/
def rsaPkcs1024_max_recovered_len : Nat := 128 - 11

/-- tok with its four encryption/decryption operations replaced: used to
state that a scenario performs no encryption or decryption at all. -/
def withCrypto (tok : Token)
    (ei : Session → Mechanism → Handle → RV)
    (e : Session → Mechanism → Handle → Bytes → Nat → RV × Bytes)
    (di : Session → Mechanism → Handle → RV)
    (d : Session → Mechanism → Handle → Bytes → Nat → RV × Bytes) : Token :=
  { tok with encryptInit := ei, encrypt := e, decryptInit := di, decrypt := d }

/-- Pad a byte string to the 128-byte RSA block size with trailing zeros. -/
def padTo128 (bs : Bytes) : Bytes := bs ++ List.replicate (128 - bs.length) 0

/-- A well-behaved concrete token: generation yields handles (1, 2); the
public-key handle 1 encrypts by padding to a 128-byte block; the private-key
handle 2 decrypts by taking the first 10 bytes back; sensitive private-key
attributes are refused with the sensitive-attribute code; destruction
succeeds.  Used to witness that every harness scenario is satisfiable. -/
def goodTok : Token where
  generateKeyPair := fun _ _ _ _ => (RV.ok, 1, 2)
  encryptInit := fun _ _ _ => RV.ok
  encrypt := fun _ _ _ data _ => (RV.ok, padTo128 data)
  decryptInit := fun _ _ _ => RV.ok
  decrypt := fun _ _ _ data _ => (RV.ok, data.take 10)
  getAttributeValue := fun _ h query =>
    if (h == 2) && query.any (fun q =>
        (q.1 == CKA_PRIME_1) || (q.1 == CKA_PRIME_2) || (q.1 == CKA_PRIVATE_EXPONENT)) then
      (RV.attributeSensitive, [])
    else
      (RV.ok, query.map (fun _ => [0]))
  destroyObject := fun _ _ => RV.ok

/-- A concrete token with no working encryption or decryption: every
encrypt/decrypt-related call fails with a generic error code, while key-pair
generation, attribute retrieval and destruction behave like goodTok. -/
def tokNoCrypto : Token where
  generateKeyPair := fun _ _ _ _ => (RV.ok, 1, 2)
  encryptInit := fun _ _ _ => RV.other 0x6
  encrypt := fun _ _ _ _ _ => (RV.other 0x6, [])
  decryptInit := fun _ _ _ => RV.other 0x6
  decrypt := fun _ _ _ _ _ => (RV.other 0x6, [])
  getAttributeValue := fun _ _ query => (RV.ok, query.map (fun _ => [0]))
  destroyObject := fun _ _ => RV.ok

/-- A concrete token whose attribute retrieval on the public key succeeds but
returns a public exponent of 0x090909 — not the 65537 requested by the
generation template — while the sensitive private-key attributes are refused
as required.  Crypto operations behave like goodTok. -/
def tokWrongVals : Token where
  generateKeyPair := fun _ _ _ _ => (RV.ok, 1, 2)
  encryptInit := fun _ _ _ => RV.ok
  encrypt := fun _ _ _ data _ => (RV.ok, padTo128 data)
  decryptInit := fun _ _ _ => RV.ok
  decrypt := fun _ _ _ data _ => (RV.ok, data.take 10)
  getAttributeValue := fun _ h query =>
    if (h == 2) && query.any (fun q =>
        (q.1 == CKA_PRIME_1) || (q.1 == CKA_PRIME_2) || (q.1 == CKA_PRIVATE_EXPONENT)) then
      (RV.attributeSensitive, [])
    else
      (RV.ok, [[0x11], [0x09, 0x09, 0x09]])
  destroyObject := fun _ _ => RV.ok

/-- Internal lemma: once teardown has run, every further teardown issues no
destroy-object invocation and leaves the invalid-sentinel state unchanged. -/
theorem teardownTimes_invalid (n : Nat) :
    teardownTimes n ⟨INVALID_OBJECT_HANDLE, INVALID_OBJECT_HANDLE⟩ =
      ([], (⟨INVALID_OBJECT_HANDLE, INVALID_OBJECT_HANDLE⟩ : FixtureState)) := by
  induction n with
  | zero => rfl
  | succ n ih => simp [teardownTimes, teardown, ih]

/-- C1: for every token (hence for every freshly generated key-pair and every
behavior of the device), if the EncryptDecrypt scenario passes then
decrypting, with the pair's private handle under the same CKM_RSA_PKCS
mechanism, the ciphertext produced by encrypting the exercised 10-byte
plaintext with the pair's public handle yields the plaintext exactly:
byte-for-byte equal contents and equal lengths. -/
theorem encryptDecrypt_roundtrip (tok : Token) (s : Session)
    (h : EncryptDecrypt tok s = true) :
    (kpDecrypt tok s).2 = plaintext ∧ (kpDecrypt tok s).2.length = plaintext.length := by
  simp only [EncryptDecrypt, Bool.and_eq_true, decide_eq_true_eq] at h
  obtain ⟨⟨⟨⟨⟨⟨⟨h1, h2⟩, h3⟩, h4⟩, h5⟩, h6⟩, h7⟩, h8⟩ := h
  have hd : (kpDecrypt tok s).2 = plaintext := by
    have ht := (List.take_length (kpDecrypt tok s).2).symm
    rw [h7] at ht
    rw [ht, h8]
  exact ⟨hd, by rw [hd]⟩

set_option maxRecDepth 8192 in
/-- Witness for C1: the well-behaved concrete token passes the EncryptDecrypt
scenario, and the round-trip conclusion holds for it. -/
theorem encryptDecrypt_roundtrip_witness :
    EncryptDecrypt goodTok 0 = true ∧
      ((kpDecrypt goodTok 0).2 = plaintext ∧
        (kpDecrypt goodTok 0).2.length = plaintext.length) :=
  ⟨by decide, encryptDecrypt_roundtrip goodTok 0 (by decide)⟩

/-- C2: for every token, if the ExtractKeys scenario (whose private template
contains CKA_SENSITIVE) passes, then each of the three get-attribute-value
calls on the private handle — CKA_PRIME_1, CKA_PRIME_2, CKA_PRIVATE_EXPONENT —
returned CKR_ATTRIBUTE_SENSITIVE, and none of them returned CKR_OK. -/
theorem extractKeys_sensitive_enforced (tok : Token) (s : Session)
    (h : ExtractKeys tok s = true) :
    ((tok.getAttributeValue s (extractGen tok s).2.2 [(CKA_PRIME_1, 1024)]).1
        = RV.attributeSensitive ∧
      (tok.getAttributeValue s (extractGen tok s).2.2 [(CKA_PRIME_1, 1024)]).1 ≠ RV.ok) ∧
    ((tok.getAttributeValue s (extractGen tok s).2.2 [(CKA_PRIME_2, 1024)]).1
        = RV.attributeSensitive ∧
      (tok.getAttributeValue s (extractGen tok s).2.2 [(CKA_PRIME_2, 1024)]).1 ≠ RV.ok) ∧
    ((tok.getAttributeValue s (extractGen tok s).2.2 [(CKA_PRIVATE_EXPONENT, 1024)]).1
        = RV.attributeSensitive ∧
      (tok.getAttributeValue s (extractGen tok s).2.2 [(CKA_PRIVATE_EXPONENT, 1024)]).1
        ≠ RV.ok) := by
  simp only [ExtractKeys, Bool.and_eq_true, decide_eq_true_eq] at h
  obtain ⟨⟨⟨⟨h1, h2⟩, h3⟩, h4⟩, h5⟩ := h
  refine ⟨⟨h3, ?_⟩, ⟨h4, ?_⟩, ⟨h5, ?_⟩⟩ <;> simp [h3, h4, h5]

/-- Witness for C2: the well-behaved concrete token passes ExtractKeys and
the sensitivity conclusion holds for it. -/
theorem extractKeys_sensitive_enforced_witness :
    ExtractKeys goodTok 0 = true ∧
      (((goodTok.getAttributeValue 0 (extractGen goodTok 0).2.2 [(CKA_PRIME_1, 1024)]).1
          = RV.attributeSensitive ∧
        (goodTok.getAttributeValue 0 (extractGen goodTok 0).2.2 [(CKA_PRIME_1, 1024)]).1
          ≠ RV.ok) ∧
      ((goodTok.getAttributeValue 0 (extractGen goodTok 0).2.2 [(CKA_PRIME_2, 1024)]).1
          = RV.attributeSensitive ∧
        (goodTok.getAttributeValue 0 (extractGen goodTok 0).2.2 [(CKA_PRIME_2, 1024)]).1
          ≠ RV.ok) ∧
      ((goodTok.getAttributeValue 0 (extractGen goodTok 0).2.2 [(CKA_PRIVATE_EXPONENT, 1024)]).1
          = RV.attributeSensitive ∧
        (goodTok.getAttributeValue 0 (extractGen goodTok 0).2.2 [(CKA_PRIVATE_EXPONENT, 1024)]).1
          ≠ RV.ok)) :=
  ⟨by decide, extractKeys_sensitive_enforced goodTok 0 (by decide)⟩

/-- C3: the AsymmetricTokenKeyPair scenario (private key token-resident,
public key session-only) passes exactly when either key-pair generation
returned CKR_OK and both returned handles were then independently destroyed
with CKR_OK, or generation failed and the failure code was exactly
CKR_TEMPLATE_INCONSISTENT — no other outcome is accepted. -/
theorem asymmetricTokenKeyPair_two_outcomes (tok : Token) (s : Session) :
    AsymmetricTokenKeyPair tok s = true ↔
      (((asymGen tok s).1 = RV.ok ∧
        tok.destroyObject s (asymGen tok s).2.1 = RV.ok ∧
        tok.destroyObject s (asymGen tok s).2.2 = RV.ok) ∨
      ((asymGen tok s).1 ≠ RV.ok ∧
        (asymGen tok s).1 = RV.templateInconsistent)) := by
  unfold AsymmetricTokenKeyPair
  split
  next hok =>
    simp only [Bool.and_eq_true, decide_eq_true_eq]
    constructor
    · rintro ⟨hd1, hd2⟩
      exact Or.inl ⟨hok, hd1, hd2⟩
    · rintro (⟨_, hd1, hd2⟩ | ⟨hne, _⟩)
      · exact ⟨hd1, hd2⟩
      · exact absurd hok hne
  next hne =>
    simp only [decide_eq_true_eq]
    constructor
    · intro hti
      exact Or.inr ⟨hne, hti⟩
    · rintro (⟨hok, _⟩ | ⟨_, hti⟩)
      · exact absurd hok hne
      · exact hti

/-- C4: for every token, if the EncryptDecrypt scenario passes then the
length written back by the single-shot C_Encrypt call under the 1024-bit
mechanism is exactly 128 bytes (the expected value 128 is a constant of the
harness, independent of the plaintext's content). -/
theorem encryptDecrypt_ciphertext_len_128 (tok : Token) (s : Session)
    (h : EncryptDecrypt tok s = true) :
    (kpEncrypt tok s).2.length = 128 := by
  simp only [EncryptDecrypt, Bool.and_eq_true, decide_eq_true_eq] at h
  exact h.1.1.1.1.2

set_option maxRecDepth 8192 in
/-- Witness for C4: the well-behaved concrete token passes EncryptDecrypt and
its ciphertext length is 128. -/
theorem encryptDecrypt_ciphertext_len_128_witness :
    EncryptDecrypt goodTok 0 = true ∧ (kpEncrypt goodTok 0).2.length = 128 :=
  ⟨by decide, encryptDecrypt_ciphertext_len_128 goodTok 0 (by decide)⟩

/-- Counterexample for C5: the scenario that generates a key-pair with the
4-byte-encoded public exponent 65537 (PublicExponent4Bytes) passes on a
concrete token on which every encryption and decryption call fails — so that
scenario performs no encrypt, no ciphertext-length check and no decrypt at
all, while the EncryptDecrypt scenario (which does perform those checks, on
the fixture's own key-pair) fails on the same token. -/
theorem publicExponent4Bytes_no_crypto_counterexample :
    PublicExponent4Bytes tokNoCrypto 0 = true ∧
    (tokNoCrypto.encrypt 0 mechanism_RSA_PKCS 1 plaintext ciphertext_capacity).1 ≠ RV.ok ∧
    EncryptDecrypt tokNoCrypto 0 = false := by decide

/-- C5 (amended): the generation-with-explicit-4-byte-exponent step and the
encrypt/decrypt/length checks live in separate scenarios on different
key-pairs: the verdict of the PublicExponent4Bytes scenario is invariant
under arbitrary replacement of the token's C_EncryptInit, C_Encrypt,
C_DecryptInit and C_Decrypt operations, i.e. that scenario makes no
encryption or decryption check whatsoever. -/
theorem publicExponent4Bytes_crypto_independent :
    ∀ (tok : Token) (s : Session) ei e di d,
      PublicExponent4Bytes (withCrypto tok ei e di d) s = PublicExponent4Bytes tok s := by
  intro tok s ei e di d
  rfl

/-- C6 (amended): for every token, if the ExtractKeys scenario passes then the
get-attribute-value call on the public handle requesting CKA_MODULUS and
CKA_PUBLIC_EXPONENT returned CKR_OK; retrievability is all the harness
asserts — the returned bytes are not compared against the template. -/
theorem extractKeys_public_attrs_retrievable (tok : Token) (s : Session)
    (h : ExtractKeys tok s = true) :
    (tok.getAttributeValue s (extractGen tok s).2.1 getPublicAttrsQuery).1 = RV.ok := by
  simp only [ExtractKeys, Bool.and_eq_true, decide_eq_true_eq] at h
  exact h.1.1.1.2

/-- Witness for C6 (amended): the well-behaved concrete token passes
ExtractKeys and its public-attribute query returns CKR_OK. -/
theorem extractKeys_public_attrs_retrievable_witness :
    ExtractKeys goodTok 0 = true ∧
      (goodTok.getAttributeValue 0 (extractGen goodTok 0).2.1 getPublicAttrsQuery).1 = RV.ok :=
  ⟨by decide, extractKeys_public_attrs_retrievable goodTok 0 (by decide)⟩

/-- Counterexample for C6: a concrete token that passes ExtractKeys although
the public-exponent bytes it returns (0x090909) differ from the 65537 value
the generation template requested (the template does carry
CKA_PUBLIC_EXPONENT = 0x010001): the harness asserts success only and never
compares the returned values. -/
theorem extractKeys_values_unchecked_counterexample :
    ExtractKeys tokWrongVals 0 = true ∧
    (tokWrongVals.getAttributeValue 0 (extractGen tokWrongVals 0).2.1 getPublicAttrsQuery).2 =
      [[0x11], [0x09, 0x09, 0x09]] ∧
    (⟨CKA_PUBLIC_EXPONENT, some public_exponent_value_3⟩ : Attribute) ∈ keyPairBasePublicAttrs ∧
    ([0x09, 0x09, 0x09] : Bytes) ≠ public_exponent_value_3 ∧
    beVal [0x09, 0x09, 0x09] ≠ beVal public_exponent_value_3 := by decide

/-- C7: teardown of a never-created (or already torn down) fixture is a no-op
issuing no destroy-object invocation; destroy-object is only ever invoked on
handles distinct from the invalid sentinel; and invoking teardown any number
of times has the same observable result — invocations issued and final
state — as invoking it once. -/
theorem teardown_guarded_idempotent :
    (teardown ⟨INVALID_OBJECT_HANDLE, INVALID_OBJECT_HANDLE⟩ =
        ([], (⟨INVALID_OBJECT_HANDLE, INVALID_OBJECT_HANDLE⟩ : FixtureState))) ∧
    (∀ st : FixtureState,
      ((teardown st).1.all (fun h => h != INVALID_OBJECT_HANDLE)) = true) ∧
    (∀ (st : FixtureState) (n : Nat), teardownTimes (n + 1) st = teardown st) := by
  refine ⟨rfl, ?_, ?_⟩
  · intro st
    simp only [teardown, List.all_append, Bool.and_eq_true]
    constructor <;> split <;> simp_all
  · intro st n
    simp [teardownTimes, teardownTimes_invalid, teardown]

/-- C8: the capacity handed to the single-shot C_Encrypt call (1024) does
cover the 128-byte block, but the in/out capacity handed to the single-shot
C_Decrypt call is recovered_plaintext_len = sizeof(plaintext) = 10 — below
the 117-byte maximum recovered-plaintext size of CKM_RSA_PKCS with a
1024-bit modulus — even though the recovered_plaintext buffer itself is
declared with 1024 bytes. -/
theorem decrypt_capacity_below_mechanism_max :
    ciphertext_capacity = 1024 ∧ 128 ≤ ciphertext_capacity ∧
    recovered_plaintext_capacity = 10 ∧ rsaPkcs1024_max_recovered_len = 117 ∧
    recovered_plaintext_capacity < rsaPkcs1024_max_recovered_len := by decide

/-- C9: the attribute-template builder, given only the kind of a
boolean-valued attribute, produces an attribute carrying the canonical true
value — a present (non-null) value of the CK_BBOOL byte length 1 — for every
kind so supplied, and passes kinds with explicit values through with their
byte-exact encodings. -/
theorem buildAttribute_bool_default_true :
    (∀ t : Nat, buildAttribute (AttrSpec.kindOnly t) = ⟨t, some ckTrue⟩ ∧
      (buildAttribute (AttrSpec.kindOnly t)).value.isSome = true ∧
      (buildAttribute (AttrSpec.kindOnly t)).len = 1) ∧
    (∀ (t : Nat) (v : Bytes), buildAttribute (AttrSpec.withValue t v) = ⟨t, some v⟩ ∧
      (buildAttribute (AttrSpec.withValue t v)).len = v.length) := by
  constructor
  · intro t
    exact ⟨rfl, rfl, rfl⟩
  · intro t v
    exact ⟨rfl, rfl⟩

/-- C10: read as big-endian unsigned integers, the 4-byte public-exponent
encoding {0x00, 0x01, 0x00, 0x01} and the 3-byte encoding {0x01, 0x00, 0x01}
used by the two generation calls denote the same integer, 65537. -/
theorem public_exponent_encodings_agree :
    beVal public_exponent_value_4 = 65537 ∧ beVal public_exponent_value_3 = 65537 ∧
    beVal public_exponent_value_4 = beVal public_exponent_value_3 := by decide
